import Mathlib

/-
Verification of the observability bootstrap package (Go, package
`observability`): trace-context-to-logger correlation, environment-dependent
tracer-provider construction, and shutdown error aggregation.

The repository holds two near-duplicate implementation variants:
  * the memoized variant (file with `var GCPProjectID = getGcpProjectID()`,
    explicit samplers) — embedded below without a suffix;
  * the legacy variant (`observability.go`, per-call metadata lookup, no
    explicit sampler) — embedded below with a `_legacy` suffix.

External collaborators (the OpenTelemetry SDK, the GCP metadata client,
logrus, fiber) are embedded by their observable behavior at the call sites
the code uses: fallible constructors become explicit outcome parameters,
the process environment becomes a `String → String` map (Go's `os.Getenv`
returns "" for unset variables), and a logrus entry is its field map.
-/

namespace Observability

/-- Observable projection of an OpenTelemetry `SpanContext`: the rendered
trace/span identifiers (`TraceID().String()`, `SpanID().String()`), the
sampling flag (`IsSampled()`) and validity (`IsValid()`).  This matches the
spec's `SpanReference {traceId, spanId, isSampled, isValid}`. -/
structure SpanContext where
  traceID : String
  spanID : String
  sampled : Bool
  valid : Bool

deriving instance DecidableEq for SpanContext

/-- The span context `oteltrace.SpanFromContext` yields when the context
carries no span: the noop span, whose span context is invalid (all-zero
identifiers). -/
def invalidSpanContext : SpanContext :=
  { traceID := "00000000000000000000000000000000"
    spanID := "0000000000000000"
    sampled := false
    valid := false }

/-- A Go `context.Context` as the logger factory observes it: it either
carries an active span's context or none. -/
structure Context where
  span : Option SpanContext

deriving instance DecidableEq for Context

/-- Embedding of `oteltrace.SpanFromContext(ctx).SpanContext()`: the stored
span context when one is attached, the noop span's invalid context
otherwise. -/
def SpanFromContext (ctx : Context) : SpanContext :=
  ctx.span.getD invalidSpanContext

/-- A logrus field value as this code uses them: a string or a boolean. -/
inductive LogValue
  | str (s : String)
  | bool (b : Bool)

deriving instance DecidableEq for LogValue

/-- A logrus `*Entry`, embedded as its field map (`logrus.Fields`),
represented as an association list. -/
structure Entry where
  data : List (String × LogValue)

deriving instance DecidableEq for Entry

/-- Embedding of `logrus.NewEntry(logrus.New())`: a fresh entry with no
fields. -/
def NewEntry : Entry := ⟨[]⟩

/-- Embedding of `logrus.WithFields(fields)`: an entry on the standard
logger carrying exactly the given fields. -/
def WithFields (fs : List (String × LogValue)) : Entry := ⟨fs⟩

/-- Look a field up in an entry's field map. -/
def Entry.getField (e : Entry) (k : String) : Option LogValue :=
  (e.data.find? (fun p => p.1 == k)).map Prod.snd

/-- The process environment as `os.Getenv` exposes it: a total map from
variable names to values, "" standing for unset. -/
abbrev Env := String → String

/-- Outcome of one call to `metadata.ProjectIDWithContext`: the returned
project-identifier string and the returned error (`none` = success).  The
metadata client returns "" as the string component when it errors. -/
structure MetadataResult where
  projectID : String
  err : Option String

deriving instance DecidableEq for MetadataResult

/-- Embedding of the memoized variant's `getGcpProjectID`:

    projectID := "local"
    if os.Getenv("ENABLE_GCP_TRACING") == "true" {
      projectID, _ = metadata.ProjectIDWithContext(context.Background())
    }
    return projectID

The two-value assignment `projectID, _ =` discards the error but does
overwrite `projectID` with the metadata call's string component. -/
def getGcpProjectID (env : Env) (m : MetadataResult) : String :=
  let projectID := "local"
  if env "ENABLE_GCP_TRACING" = "true" then
    m.projectID
  else
    projectID

/-- Embedding of the legacy variant's `getGcpProjectID(ctx)`:

    projectID, err := metadata.ProjectIDWithContext(ctx)
    if err != nil { projectID = "" }
    return projectID
-/
def getGcpProjectID_legacy (m : MetadataResult) : String :=
  match m.err with
  | some _ => ""
  | none => m.projectID

/-- Embedding of the memoized variant's `newTraceAwareLogrusLogger(ctx)`.
`gcpProjectID` stands for the process-global memoized `GCPProjectID`
value. -/
def newTraceAwareLogrusLogger (gcpProjectID : String) (ctx : Context) : Entry :=
  let spanContext := SpanFromContext ctx
  let logger := NewEntry
  if spanContext.valid then
    let traceId := "projects/" ++ gcpProjectID ++ "/traces/" ++ spanContext.traceID
    WithFields
      [("logging.googleapis.com/trace", LogValue.str traceId),
       ("logging.googleapis.com/spanId", LogValue.str spanContext.spanID),
       ("logging.googleapis.com/traceSampled", LogValue.bool spanContext.sampled)]
  else
    logger

/-- Embedding of the legacy variant's `newTraceAwareLogrusLogger(ctx)`,
which resolves the project identifier per call via
`getGcpProjectID(ctx)`. -/
def newTraceAwareLogrusLogger_legacy (m : MetadataResult) (ctx : Context) : Entry :=
  let spanContext := SpanFromContext ctx
  let logger := NewEntry
  if spanContext.valid then
    let traceId := "projects/" ++ getGcpProjectID_legacy m ++ "/traces/" ++ spanContext.traceID
    WithFields
      [("logging.googleapis.com/trace", LogValue.str traceId),
       ("logging.googleapis.com/spanId", LogValue.str spanContext.spanID),
       ("logging.googleapis.com/traceSampled", LogValue.bool spanContext.sampled)]
  else
    logger

/-- A value stored in a fiber call-scoped locals slot: either a
`*logrus.Entry` or a value of some other dynamic type. -/
inductive LocalValue
  | entry (e : Entry)
  | other (tag : String)

deriving instance DecidableEq for LocalValue

/-- A `*fiber.Ctx` as this code observes it: its name-keyed locals store
and its user context. -/
structure FiberCtx where
  locals : String → Option LocalValue
  userContext : Context

/-- Embedding of `c.Locals("logger", v)` (the store form). -/
def FiberCtx.setLocal (c : FiberCtx) (k : String) (v : LocalValue) : FiberCtx :=
  { c with locals := fun k2 => if k2 = k then some v else c.locals k2 }

/-- Embedding of the middleware body (memoized variant): store the
trace-aware logger under the fixed slot name "logger" before the handler
chain continues. -/
def newTraceAwareLogrusLoggerMiddleware (gcpProjectID : String) (c : FiberCtx) : FiberCtx :=
  c.setLocal "logger" (LocalValue.entry (newTraceAwareLogrusLogger gcpProjectID c.userContext))

/-- Embedding of `GetLogger(c)`:

    if logger, ok := c.Locals("logger").(*logrus.Entry); ok { return logger }
    return logrus.NewEntry(logrus.New())

Total by construction (returns `Entry`, never fails). -/
def GetLogger (c : FiberCtx) : Entry :=
  match c.locals "logger" with
  | some (LocalValue.entry logger) => logger
  | _ => NewEntry

/-- An OpenTelemetry sampler policy as this code constructs them:
`trace.AlwaysSample()`, `trace.TraceIDRatioBased(r)` and
`trace.ParentBased(root)`. -/
inductive Sampler
  | alwaysSample
  | traceIDRatioBased (r : ℚ)
  | parentBased (root : Sampler)

deriving instance DecidableEq for Sampler

/-- Modelled from the OpenTelemetry SDK's documented sampler semantics
(external library): `AlwaysSample` records everything;
`TraceIDRatioBased r` samples a root span when the uniform value derived
from its trace identifier falls below `r`; `ParentBased root` adopts the
propagated parent's decision when a parent exists and defers to `root`
otherwise.  `parentDecision` is the propagated parent's sampling decision
(`none` = root span); `traceValue` is the uniform value in `[0,1)` the SDK
derives from the trace identifier. -/
def samplerDecision : Sampler → Option Bool → ℚ → Bool
  | Sampler.alwaysSample, _, _ => true
  | Sampler.traceIDRatioBased r, _, traceValue => decide (traceValue < r)
  | Sampler.parentBased root, parentDecision, traceValue =>
    match parentDecision with
    | some b => b
    | none => samplerDecision root none traceValue

/-- A span exporter as this code constructs them: the Google Cloud Trace
exporter (`texporter.New(texporter.WithProjectID(pid))`) or the generic
OTLP/gRPC exporter (`otlptracegrpc.New(ctx)`). -/
inductive SpanExporter
  | googleCloudTrace (projectID : String)
  | otlpGrpc

deriving instance DecidableEq for SpanExporter

/-- A tracing resource as this code constructs them: whether the GCP
detector and the telemetry-SDK attributes were requested, plus the
service-name attribute. -/
structure Resource where
  gcpDetector : Bool
  telemetrySDK : Bool
  serviceName : String

deriving instance DecidableEq for Resource

/-- The global text-map propagator this code can install:
`autoprop.NewTextMapPropagator()`. -/
inductive TextMapPropagator
  | autoprop

deriving instance DecidableEq for TextMapPropagator

/-- A tracer provider as `trace.NewTracerProvider` builds it here: one
batched exporter, one resource, and the sampler option when one was passed
(`none` = no `WithSampler` option, i.e. the SDK default, as in the legacy
variant). -/
structure TracerProvider where
  exporter : SpanExporter
  res : Resource
  sampler : Option Sampler

deriving instance DecidableEq for TracerProvider

/-- The process-wide mutable OpenTelemetry globals written by
`otel.SetTextMapPropagator` and `otel.SetTracerProvider`. -/
structure OtelGlobals where
  textMapPropagator : Option TextMapPropagator
  tracerProvider : Option TracerProvider

deriving instance DecidableEq for OtelGlobals

/-- Outcomes of the fallible external constructor calls inside
`setupOpenTelemetry`, one per call site (`none` = that call succeeds).
`texporterNewErr` is the cloud exporter constructor, `gcpResourceNewErr`
the cloud-branch `resource.New`, `localResourceNewErr` the local-branch
`resource.New`, `otlptracegrpcNewErr` the OTLP exporter constructor. -/
structure SetupSteps where
  texporterNewErr : Option String
  gcpResourceNewErr : Option String
  localResourceNewErr : Option String
  otlptracegrpcNewErr : Option String

deriving instance DecidableEq for SetupSteps

/-- What `setupOpenTelemetry` leaves behind: the OpenTelemetry globals
after the call, the returned shutdown function (embedded as the tracer
provider the closure owns; `none` = the Go function returned a nil
shutdown), and the returned error. -/
structure SetupResult where
  globals : OtelGlobals
  shutdown : Option TracerProvider
  err : Option String

deriving instance DecidableEq for SetupResult

/-- Embedding of the memoized variant's `setupOpenTelemetry(ctx,
serviceName)`.  `gcpProjectID` stands for the memoized global of the same
name, `g` for the OpenTelemetry globals at entry.  The cloud branch builds
the Cloud Trace exporter, a resource with the GCP detector and
telemetry-SDK attributes, and a `ParentBased(TraceIDRatioBased(0.01))`
sampler; the local branch builds a plain resource, the OTLP/gRPC exporter,
and `AlwaysSample()`.  Each constructor error returns `(nil, err)` before
the globals are written. -/
def setupOpenTelemetry (env : Env) (gcpProjectID serviceName : String)
    (steps : SetupSteps) (g : OtelGlobals) : SetupResult :=
  if env "ENABLE_GCP_TRACING" = "true" then
    match steps.texporterNewErr with
    | some e => ⟨g, none, some ("failed to create resource: " ++ e)⟩
    | none =>
      match steps.gcpResourceNewErr with
      | some e => ⟨g, none, some ("failed to create resource: " ++ e)⟩
      | none =>
        let tracerProvider : TracerProvider :=
          { exporter := SpanExporter.googleCloudTrace gcpProjectID
            res := ⟨true, true, serviceName⟩
            sampler := some (Sampler.parentBased (Sampler.traceIDRatioBased (1 / 100))) }
        ⟨⟨some TextMapPropagator.autoprop, some tracerProvider⟩, some tracerProvider, none⟩
  else
    match steps.localResourceNewErr with
    | some e => ⟨g, none, some ("failed to create resource: " ++ e)⟩
    | none =>
      match steps.otlptracegrpcNewErr with
      | some e => ⟨g, none, some ("failed to create trace exporter: " ++ e)⟩
      | none =>
        let tracerProvider : TracerProvider :=
          { exporter := SpanExporter.otlpGrpc
            res := ⟨false, false, serviceName⟩
            sampler := some Sampler.alwaysSample }
        ⟨⟨some TextMapPropagator.autoprop, some tracerProvider⟩, some tracerProvider, none⟩

/-- Embedding of the legacy variant's `setupOpenTelemetry`: same branch
structure, but the project identifier comes from a per-call
`getGcpProjectID(ctx)` metadata lookup and the tracer provider is built
without a `WithSampler` option. -/
def setupOpenTelemetry_legacy (env : Env) (m : MetadataResult) (serviceName : String)
    (steps : SetupSteps) (g : OtelGlobals) : SetupResult :=
  if env "ENABLE_GCP_TRACING" = "true" then
    match steps.texporterNewErr with
    | some e => ⟨g, none, some ("failed to create resource: " ++ e)⟩
    | none =>
      match steps.gcpResourceNewErr with
      | some e => ⟨g, none, some ("failed to create resource: " ++ e)⟩
      | none =>
        let tracerProvider : TracerProvider :=
          { exporter := SpanExporter.googleCloudTrace (getGcpProjectID_legacy m)
            res := ⟨true, true, serviceName⟩
            sampler := none }
        ⟨⟨some TextMapPropagator.autoprop, some tracerProvider⟩, some tracerProvider, none⟩
  else
    match steps.localResourceNewErr with
    | some e => ⟨g, none, some ("failed to create resource: " ++ e)⟩
    | none =>
      match steps.otlptracegrpcNewErr with
      | some e => ⟨g, none, some ("failed to create trace exporter: " ++ e)⟩
      | none =>
        let tracerProvider : TracerProvider :=
          { exporter := SpanExporter.otlpGrpc
            res := ⟨false, false, serviceName⟩
            sampler := none }
        ⟨⟨some TextMapPropagator.autoprop, some tracerProvider⟩, some tracerProvider, none⟩

/-- Embedding of the body of the shutdown closure returned by
`setupOpenTelemetry`, applied to the outcome of
`tracerProvider.Shutdown(ctx)` (`none` = that call succeeded):

    var errs []error
    if err := tracerProvider.Shutdown(ctx); err != nil { errs = append(errs, err) }
    if len(errs) > 0 { return fmt.Errorf("failed to shutdown: %v", errs) }
    return nil
-/
def runShutdown (providerShutdownErr : Option String) : Option String :=
  let errs : List String :=
    match providerShutdownErr with
    | some e => [e]
    | none => []
  if errs.length > 0 then
    some ("failed to shutdown: " ++ String.intercalate " " errs)
  else
    none

/-- Embedding of `errors.Join(errs...)`: `nil` when every argument is
`nil`, otherwise an error wrapping every non-nil argument. -/
def errorsJoin (errs : List (Option String)) : Option String :=
  match errs.filterMap id with
  | [] => none
  | es => some (String.intercalate "\n" es)

/-- How a control path ends at process level: return normally, or
terminate the process (`logrus.Fatal`). -/
inductive ProcessOutcome
  | normal
  | fatalExit (msg : String)

deriving instance DecidableEq for ProcessOutcome

/-- Embedding of `SafeShutdown(errs ...error)`:

    if err := errors.Join(errs...); err != nil { logrus.Fatal(err) }
-/
def SafeShutdown (errs : List (Option String)) : ProcessOutcome :=
  match errorsJoin errs with
  | some e => ProcessOutcome.fatalExit e
  | none => ProcessOutcome.normal

/-- How `NewLogrusAndTraceAwareFiberApp` ends: `logrus.Fatal` with the
"FailedToSetupOpenTelemetry" event (process exits before serving), or the
app starts serving holding the returned shutdown function. -/
inductive BootstrapOutcome
  | fatalExit (event : String) (msg : String)
  | serving (shutdown : Option TracerProvider)

deriving instance DecidableEq for BootstrapOutcome

/-- Embedding of the memoized variant's `NewLogrusAndTraceAwareFiberApp`
tail: run `setupOpenTelemetry` and `Fatal` on error, otherwise return the
app and the shutdown function.  Yields the OpenTelemetry globals after the
call together with the outcome. -/
def NewLogrusAndTraceAwareFiberApp (env : Env) (gcpProjectID serviceName : String)
    (steps : SetupSteps) (g : OtelGlobals) : OtelGlobals × BootstrapOutcome :=
  let r := setupOpenTelemetry env gcpProjectID serviceName steps g
  match r.err with
  | some e => (r.globals, BootstrapOutcome.fatalExit "FailedToSetupOpenTelemetry" e)
  | none => (r.globals, BootstrapOutcome.serving r.shutdown)

/-- The spec's `DeploymentContext {isCloud, projectIdentifier}`, packaging
the code's two process-wide start-up decisions: the branch predicate
`os.Getenv("ENABLE_GCP_TRACING") == "true"` used by `setupOpenTelemetry`,
and the memoized `GCPProjectID = getGcpProjectID()`. -/
structure DeploymentContext where
  isCloud : Bool
  projectIdentifier : String

deriving instance DecidableEq for DeploymentContext

/-- The deployment context the memoized variant resolves at process start,
as a function of the environment and the metadata-call outcome. -/
def resolveDeploymentContext (env : Env) (m : MetadataResult) : DeploymentContext :=
  { isCloud := env "ENABLE_GCP_TRACING" == "true"
    projectIdentifier := getGcpProjectID env m }

/-- C1: for every context carrying a valid, sampled span with trace ID T
and span ID S, under a memoized project identifier P, the trace-aware
logger factory returns a logger whose trace field equals exactly
"projects/" ++ P ++ "/traces/" ++ T, whose span-id field equals exactly S,
and whose sampled field equals true, under the field names
logging.googleapis.com/trace, logging.googleapis.com/spanId and
logging.googleapis.com/traceSampled. -/
theorem C1_trace_logger_fields (P : String) (ctx : Context) (sc : SpanContext)
    (hspan : ctx.span = some sc) (hvalid : sc.valid = true) (hsampled : sc.sampled = true) :
    (newTraceAwareLogrusLogger P ctx).getField "logging.googleapis.com/trace"
        = some (LogValue.str ("projects/" ++ P ++ "/traces/" ++ sc.traceID)) ∧
    (newTraceAwareLogrusLogger P ctx).getField "logging.googleapis.com/spanId"
        = some (LogValue.str sc.spanID) ∧
    (newTraceAwareLogrusLogger P ctx).getField "logging.googleapis.com/traceSampled"
        = some (LogValue.bool true) := by
  have h1 : SpanFromContext ctx = sc := by simp [SpanFromContext, hspan]
  simp [newTraceAwareLogrusLogger, h1, hvalid, hsampled, WithFields, Entry.getField,
    List.find?]

/-- Witness for C1 at a concrete sampled span and project identifier. -/
theorem C1_trace_logger_fields_witness :
    (Context.mk (some ⟨"4bf92f3577b34da6a3ce929d0e0e4736", "00f067aa0ba902b7", true, true⟩)).span
        = some ⟨"4bf92f3577b34da6a3ce929d0e0e4736", "00f067aa0ba902b7", true, true⟩ ∧
    ((newTraceAwareLogrusLogger "my-project"
        (Context.mk (some ⟨"4bf92f3577b34da6a3ce929d0e0e4736", "00f067aa0ba902b7", true, true⟩))).getField
          "logging.googleapis.com/trace"
        = some (LogValue.str "projects/my-project/traces/4bf92f3577b34da6a3ce929d0e0e4736") ∧
     (newTraceAwareLogrusLogger "my-project"
        (Context.mk (some ⟨"4bf92f3577b34da6a3ce929d0e0e4736", "00f067aa0ba902b7", true, true⟩))).getField
          "logging.googleapis.com/spanId"
        = some (LogValue.str "00f067aa0ba902b7") ∧
     (newTraceAwareLogrusLogger "my-project"
        (Context.mk (some ⟨"4bf92f3577b34da6a3ce929d0e0e4736", "00f067aa0ba902b7", true, true⟩))).getField
          "logging.googleapis.com/traceSampled"
        = some (LogValue.bool true)) := by
  refine ⟨rfl, ?_⟩
  have h := C1_trace_logger_fields "my-project"
    (Context.mk (some ⟨"4bf92f3577b34da6a3ce929d0e0e4736", "00f067aa0ba902b7", true, true⟩))
    ⟨"4bf92f3577b34da6a3ce929d0e0e4736", "00f067aa0ba902b7", true, true⟩ rfl rfl rfl
  exact h

/-- C2 counterexample: with the cloud-tracing flag enabled and the
metadata lookup failing (the metadata client returns "" plus an error),
the memoized variant's `getGcpProjectID` yields "", not the local
sentinel — `projectID, _ =` overwrites the "local" initializer with the
returned empty string. -/
theorem C2_counterexample :
    getGcpProjectID (fun _ => "true") ⟨"", some "metadata: GCE metadata not defined"⟩ = "" ∧
    getGcpProjectID (fun _ => "true") ⟨"", some "metadata: GCE metadata not defined"⟩ ≠ "local" := by
  constructor <;> simp [getGcpProjectID]

/-- C2 amended: the resolver never propagates an error (it returns a plain
string); when the cloud-tracing flag is enabled it yields whatever string
the metadata call returned — the empty string when the lookup failed — and
it yields the fixed local sentinel "local" exactly when the flag is not
"true". -/
theorem C2_amended_resolver_characterization (env : Env) (m : MetadataResult) :
    (env "ENABLE_GCP_TRACING" ≠ "true" → getGcpProjectID env m = "local") ∧
    (env "ENABLE_GCP_TRACING" = "true" → getGcpProjectID env m = m.projectID) := by
  constructor <;> intro h <;> simp [getGcpProjectID, h]

/-- Witness for C2's amended theorem at a concrete environment with the
flag unset. -/
theorem C2_amended_resolver_characterization_witness :
    ((fun _ : String => "") "ENABLE_GCP_TRACING" ≠ "true") ∧
    getGcpProjectID (fun _ => "") ⟨"", some "metadata: GCE metadata not defined"⟩ = "local" := by
  refine ⟨by decide, ?_⟩
  exact (C2_amended_resolver_characterization (fun _ => "")
    ⟨"", some "metadata: GCE metadata not defined"⟩).1 (by decide)

/-- C3: for every context that carries no valid active span, the
trace-aware logger factory returns a logger in which none of the three
trace fields is set. -/
theorem C3_no_span_no_trace_fields (P : String) (ctx : Context)
    (h : (SpanFromContext ctx).valid = false) :
    (newTraceAwareLogrusLogger P ctx).getField "logging.googleapis.com/trace" = none ∧
    (newTraceAwareLogrusLogger P ctx).getField "logging.googleapis.com/spanId" = none ∧
    (newTraceAwareLogrusLogger P ctx).getField "logging.googleapis.com/traceSampled" = none := by
  simp [newTraceAwareLogrusLogger, h, NewEntry, Entry.getField]

/-- Witness for C3 at the context carrying no span at all. -/
theorem C3_no_span_no_trace_fields_witness :
    (SpanFromContext (Context.mk none)).valid = false ∧
    ((newTraceAwareLogrusLogger "local" (Context.mk none)).getField
        "logging.googleapis.com/trace" = none ∧
     (newTraceAwareLogrusLogger "local" (Context.mk none)).getField
        "logging.googleapis.com/spanId" = none ∧
     (newTraceAwareLogrusLogger "local" (Context.mk none)).getField
        "logging.googleapis.com/traceSampled" = none) :=
  ⟨rfl, C3_no_span_no_trace_fields "local" (Context.mk none) rfl⟩

/-- C4: whenever the cloud-tracing flag is not "true", the resolved
deployment context has isCloud = false and the local sentinel project
identifier, regardless of any other environment contents, and it does not
depend on the metadata-call outcome (no network call is consulted). -/
theorem C4_flag_off_is_local (env : Env) (m m2 : MetadataResult)
    (h : env "ENABLE_GCP_TRACING" ≠ "true") :
    (resolveDeploymentContext env m).isCloud = false ∧
    (resolveDeploymentContext env m).projectIdentifier = "local" ∧
    resolveDeploymentContext env m = resolveDeploymentContext env m2 := by
  simp [resolveDeploymentContext, getGcpProjectID, h, beq_eq_false_iff_ne]

/-- Witness for C4 at an environment holding unrelated variables and two
different metadata outcomes. -/
theorem C4_flag_off_is_local_witness :
    ((fun k => if k = "OTEL_EXPORTER_OTLP_ENDPOINT" then "localhost:4317" else "") : Env)
        "ENABLE_GCP_TRACING" ≠ "true" ∧
    ((resolveDeploymentContext
        (fun k => if k = "OTEL_EXPORTER_OTLP_ENDPOINT" then "localhost:4317" else "")
        ⟨"some-project", none⟩).isCloud = false ∧
     (resolveDeploymentContext
        (fun k => if k = "OTEL_EXPORTER_OTLP_ENDPOINT" then "localhost:4317" else "")
        ⟨"some-project", none⟩).projectIdentifier = "local" ∧
     resolveDeploymentContext
        (fun k => if k = "OTEL_EXPORTER_OTLP_ENDPOINT" then "localhost:4317" else "")
        ⟨"some-project", none⟩
       = resolveDeploymentContext
        (fun k => if k = "OTEL_EXPORTER_OTLP_ENDPOINT" then "localhost:4317" else "")
        ⟨"", some "metadata: GCE metadata not defined"⟩) :=
  ⟨by decide, C4_flag_off_is_local _ _ _ (by decide)⟩

/-- C5: sampler selection is a deterministic pure function of the single
boolean isCloud (the flag comparison): a successfully built pipeline
carries `ParentBased(TraceIDRatioBased(0.01))` when the flag is "true" and
`AlwaysSample` otherwise; no other policy is ever selected; the
parent-based policy adopts the propagated parent's decision and samples
root spans at ratio 1/100, and the always-sample policy samples
everything. -/
theorem C5_sampler_selection (env : Env) (pid name : String) (steps : SetupSteps)
    (g : OtelGlobals) (tp : TracerProvider)
    (h : (setupOpenTelemetry env pid name steps g).shutdown = some tp) :
    tp.sampler = some (if env "ENABLE_GCP_TRACING" = "true"
        then Sampler.parentBased (Sampler.traceIDRatioBased (1 / 100))
        else Sampler.alwaysSample) ∧
    (tp.sampler = some (Sampler.parentBased (Sampler.traceIDRatioBased (1 / 100))) ∨
     tp.sampler = some Sampler.alwaysSample) ∧
    (∀ b x, samplerDecision (Sampler.parentBased (Sampler.traceIDRatioBased (1 / 100)))
        (some b) x = b) ∧
    (∀ x, samplerDecision (Sampler.parentBased (Sampler.traceIDRatioBased (1 / 100))) none x
        = decide (x < 1 / 100)) ∧
    (∀ parentDecision x, samplerDecision Sampler.alwaysSample parentDecision x = true) := by
  have hs : tp.sampler = some (if env "ENABLE_GCP_TRACING" = "true"
      then Sampler.parentBased (Sampler.traceIDRatioBased (1 / 100))
      else Sampler.alwaysSample) := by
    rcases steps with ⟨t, gr, lr, ot⟩
    by_cases hc : env "ENABLE_GCP_TRACING" = "true" <;>
      cases t <;> cases gr <;> cases lr <;> cases ot <;>
        simp_all [setupOpenTelemetry] <;> rw [← h]
  refine ⟨hs, ?_, fun b x => rfl, fun x => rfl, fun parentDecision x => by
    cases parentDecision <;> rfl⟩
  rw [hs]
  by_cases hc : env "ENABLE_GCP_TRACING" = "true" <;> simp [hc]

/-- Witness for C5 at a concrete cloud-branch bootstrap that succeeds. -/
theorem C5_sampler_selection_witness :
    (setupOpenTelemetry (fun _ => "true") "my-project" "svc" ⟨none, none, none, none⟩
        ⟨none, none⟩).shutdown
      = some ⟨SpanExporter.googleCloudTrace "my-project", ⟨true, true, "svc"⟩,
          some (Sampler.parentBased (Sampler.traceIDRatioBased (1 / 100)))⟩ ∧
    (⟨SpanExporter.googleCloudTrace "my-project", ⟨true, true, "svc"⟩,
        some (Sampler.parentBased (Sampler.traceIDRatioBased (1 / 100)))⟩ :
          TracerProvider).sampler
      = some (if (fun _ : String => "true") "ENABLE_GCP_TRACING" = "true"
          then Sampler.parentBased (Sampler.traceIDRatioBased (1 / 100))
          else Sampler.alwaysSample) := by
  refine ⟨rfl, ?_⟩
  exact (C5_sampler_selection (fun _ => "true") "my-project" "svc" ⟨none, none, none, none⟩
    ⟨none, none⟩ _ rfl).1

/-- C6: logger retrieval is total (it returns an `Entry`, never fails):
it returns the stored logger when the fixed-name slot holds a value of the
logger type, and otherwise — slot empty or holding a value of the wrong
type — a freshly constructed plain logger with no fields at all. -/
theorem C6_get_logger_total (c : FiberCtx) :
    (∀ logger : Entry, c.locals "logger" = some (LocalValue.entry logger) →
        GetLogger c = logger) ∧
    ((∀ logger : Entry, c.locals "logger" ≠ some (LocalValue.entry logger)) →
        GetLogger c = NewEntry ∧ ∀ k, (GetLogger c).getField k = none) := by
  constructor
  · intro logger hl
    simp [GetLogger, hl]
  · intro hne
    cases hv : c.locals "logger" with
    | none => simp [GetLogger, hv, NewEntry, Entry.getField]
    | some v =>
      cases v with
      | entry e => exact absurd hv (hne e)
      | other tag => simp [GetLogger, hv, NewEntry, Entry.getField]

/-- Witness for C6 at a call scope whose locals store is empty (attachment
skipped). -/
theorem C6_get_logger_total_witness :
    GetLogger ⟨fun _ => none, Context.mk none⟩ = NewEntry ∧
    (GetLogger ⟨fun _ => none, Context.mk none⟩).getField
        "logging.googleapis.com/trace" = none := by
  have h := (C6_get_logger_total ⟨fun _ => none, Context.mk none⟩).2
    (fun logger => by simp)
  exact ⟨h.1, h.2 "logging.googleapis.com/trace"⟩

/-- C7: if any construction step of tracer-provider bootstrap fails, the
memoized variant's `setupOpenTelemetry` returns a nil shutdown function
together with a non-nil error, leaves the global propagator and tracer
provider uninstalled, and the bootstrap entry point ends in `Fatal`
(the process does not proceed to serve). -/
theorem C7_setup_error_is_fatal (env : Env) (pid name : String) (steps : SetupSteps)
    (g : OtelGlobals) (e : String)
    (h : (setupOpenTelemetry env pid name steps g).err = some e) :
    (setupOpenTelemetry env pid name steps g).shutdown = none ∧
    (setupOpenTelemetry env pid name steps g).globals = g ∧
    NewLogrusAndTraceAwareFiberApp env pid name steps g
      = (g, BootstrapOutcome.fatalExit "FailedToSetupOpenTelemetry" e) := by
  rcases steps with ⟨t, gr, lr, ot⟩
  by_cases hc : env "ENABLE_GCP_TRACING" = "true" <;>
    cases t <;> cases gr <;> cases lr <;> cases ot <;>
      simp_all [setupOpenTelemetry, NewLogrusAndTraceAwareFiberApp]

/-- Witness for C7 at a local-branch bootstrap whose resource construction
fails. -/
theorem C7_setup_error_is_fatal_witness :
    (setupOpenTelemetry (fun _ => "") "local" "svc" ⟨none, none, some "boom", none⟩
        ⟨none, none⟩).err = some "failed to create resource: boom" ∧
    ((setupOpenTelemetry (fun _ => "") "local" "svc" ⟨none, none, some "boom", none⟩
        ⟨none, none⟩).shutdown = none ∧
     (setupOpenTelemetry (fun _ => "") "local" "svc" ⟨none, none, some "boom", none⟩
        ⟨none, none⟩).globals = ⟨none, none⟩ ∧
     NewLogrusAndTraceAwareFiberApp (fun _ => "") "local" "svc"
        ⟨none, none, some "boom", none⟩ ⟨none, none⟩
       = (⟨none, none⟩, BootstrapOutcome.fatalExit "FailedToSetupOpenTelemetry"
            "failed to create resource: boom")) :=
  ⟨by decide, C7_setup_error_is_fatal _ _ _ _ _ _ (by decide)⟩

/-- C8: the shutdown function returned by bootstrap returns nil exactly
when the tracer pipeline's teardown succeeded (every non-nil teardown
error is collected into the combined error); `errors.Join` is nil exactly
when every supplied error is nil; and `SafeShutdown` returns normally
exactly when the join is nil and terminates the process with the joined
error otherwise. -/
theorem C8_shutdown_error_aggregation :
    (∀ providerShutdownErr : Option String,
        runShutdown providerShutdownErr = none ↔ providerShutdownErr = none) ∧
    (∀ errs : List (Option String), errorsJoin errs = none ↔ ∀ e ∈ errs, e = none) ∧
    (∀ errs : List (Option String),
        SafeShutdown errs = ProcessOutcome.normal ↔ errorsJoin errs = none) ∧
    (∀ errs : List (Option String), ∀ e : String,
        errorsJoin errs = some e → SafeShutdown errs = ProcessOutcome.fatalExit e) := by
  refine ⟨?_, ?_, ?_, ?_⟩
  · intro providerShutdownErr
    cases providerShutdownErr <;> simp [runShutdown]
  · intro errs
    have h2 : errorsJoin errs = none ↔ errs.filterMap id = [] := by
      unfold errorsJoin
      cases h : errs.filterMap id with
      | nil => simp
      | cons a as => simp
    rw [h2, List.filterMap_eq_nil_iff]
    simp
  · intro errs
    unfold SafeShutdown
    cases h : errorsJoin errs <;> simp
  · intro errs e h
    simp [SafeShutdown, h]

/-- Witness for C8 at concrete error lists. -/
theorem C8_shutdown_error_aggregation_witness :
    runShutdown none = none ∧
    SafeShutdown [none, none] = ProcessOutcome.normal ∧
    SafeShutdown [some "flush timed out"] = ProcessOutcome.fatalExit "flush timed out" := by
  refine ⟨(C8_shutdown_error_aggregation.1 none).mpr rfl, ?_, ?_⟩
  · exact (C8_shutdown_error_aggregation.2.2.1 [none, none]).mpr (by decide)
  · exact C8_shutdown_error_aggregation.2.2.2 [some "flush timed out"] "flush timed out"
      (by decide)

/-- C9 counterexample: in a local run (flag unset, metadata lookup
failing) with a valid sampled span, the memoized variant's factory and the
legacy variant's factory produce different loggers — the memoized one
builds "projects/local/traces/…", the legacy one "projects//traces/…". -/
theorem C9_counterexample :
    newTraceAwareLogrusLogger
        (getGcpProjectID (fun _ => "") ⟨"", some "metadata: GCE metadata not defined"⟩)
        (Context.mk (some ⟨"0af7651916cd43dd8448eb211c80319c", "b7ad6b7169203331", true, true⟩))
      ≠ newTraceAwareLogrusLogger_legacy ⟨"", some "metadata: GCE metadata not defined"⟩
        (Context.mk (some ⟨"0af7651916cd43dd8448eb211c80319c", "b7ad6b7169203331", true, true⟩)) := by
  decide

/-- C9 amended: the two variants' factories always agree on the span-id
and sampled fields, and they produce identical loggers exactly on those
inputs where the memoized project resolution and the legacy per-call
project resolution agree; they differ otherwise (e.g. locally, where the
memoized variant uses "local" and the legacy one ""). -/
theorem C9_amended_variant_agreement (env : Env) (m : MetadataResult) (ctx : Context) :
    ((newTraceAwareLogrusLogger (getGcpProjectID env m) ctx).getField
        "logging.googleapis.com/spanId"
      = (newTraceAwareLogrusLogger_legacy m ctx).getField "logging.googleapis.com/spanId") ∧
    ((newTraceAwareLogrusLogger (getGcpProjectID env m) ctx).getField
        "logging.googleapis.com/traceSampled"
      = (newTraceAwareLogrusLogger_legacy m ctx).getField "logging.googleapis.com/traceSampled") ∧
    (getGcpProjectID env m = getGcpProjectID_legacy m →
      newTraceAwareLogrusLogger (getGcpProjectID env m) ctx
        = newTraceAwareLogrusLogger_legacy m ctx) := by
  refine ⟨?_, ?_, ?_⟩
  · cases hv : (SpanFromContext ctx).valid <;>
      simp [newTraceAwareLogrusLogger, newTraceAwareLogrusLogger_legacy, hv,
        WithFields, NewEntry, Entry.getField, List.find?]
  · cases hv : (SpanFromContext ctx).valid <;>
      simp [newTraceAwareLogrusLogger, newTraceAwareLogrusLogger_legacy, hv,
        WithFields, NewEntry, Entry.getField, List.find?]
  · intro heq
    rw [heq]
    rfl

/-- Witness for C9's amended theorem: with the flag enabled and a
successful metadata lookup the two factories agree on a concrete valid
span. -/
theorem C9_amended_variant_agreement_witness :
    newTraceAwareLogrusLogger
        (getGcpProjectID (fun _ => "true") ⟨"my-project", none⟩)
        (Context.mk (some ⟨"0af7651916cd43dd8448eb211c80319c", "b7ad6b7169203331", true, true⟩))
      = newTraceAwareLogrusLogger_legacy ⟨"my-project", none⟩
        (Context.mk (some ⟨"0af7651916cd43dd8448eb211c80319c", "b7ad6b7169203331", true, true⟩)) :=
  (C9_amended_variant_agreement (fun _ => "true") ⟨"my-project", none⟩
    (Context.mk (some ⟨"0af7651916cd43dd8448eb211c80319c", "b7ad6b7169203331", true, true⟩))).2.2
    rfl

/-- C10: the cloud branch is enabled only when ENABLE_GCP_TRACING equals
exactly "true"; for every other value the resolver yields the local
sentinel without consulting the metadata call, the memoized variant's
bootstrap builds the OTLP/gRPC exporter with the always-sample policy, and
the legacy variant's bootstrap builds the OTLP/gRPC exporter and ignores
the metadata outcome. -/
theorem C10_cloud_branch_needs_exact_true (env : Env) (m m2 : MetadataResult)
    (pid name : String) (steps : SetupSteps) (g : OtelGlobals)
    (h : env "ENABLE_GCP_TRACING" ≠ "true") :
    getGcpProjectID env m = "local" ∧
    getGcpProjectID env m = getGcpProjectID env m2 ∧
    (∀ tp, (setupOpenTelemetry env pid name steps g).shutdown = some tp →
        tp.exporter = SpanExporter.otlpGrpc ∧ tp.sampler = some Sampler.alwaysSample) ∧
    (∀ tp, (setupOpenTelemetry_legacy env m name steps g).shutdown = some tp →
        tp.exporter = SpanExporter.otlpGrpc) ∧
    setupOpenTelemetry_legacy env m name steps g
      = setupOpenTelemetry_legacy env m2 name steps g := by
  refine ⟨by simp [getGcpProjectID, h], by simp [getGcpProjectID, h], ?_, ?_, ?_⟩
  · intro tp htp
    rcases steps with ⟨t, gr, lr, ot⟩
    cases lr <;> cases ot <;>
      simp_all [setupOpenTelemetry] <;> (rw [← htp]; exact ⟨rfl, rfl⟩)
  · intro tp htp
    rcases steps with ⟨t, gr, lr, ot⟩
    cases lr <;> cases ot <;>
      simp_all [setupOpenTelemetry_legacy] <;> rw [← htp]
  · simp [setupOpenTelemetry_legacy, h]

/-- Witness for C10 at an environment holding "TRUE" (wrong case), which
must take the local branch. -/
theorem C10_cloud_branch_needs_exact_true_witness :
    ((fun k => if k = "ENABLE_GCP_TRACING" then "TRUE" else "") : Env)
        "ENABLE_GCP_TRACING" ≠ "true" ∧
    getGcpProjectID (fun k => if k = "ENABLE_GCP_TRACING" then "TRUE" else "")
        ⟨"some-project", none⟩ = "local" :=
  ⟨by decide,
   (C10_cloud_branch_needs_exact_true
      (fun k => if k = "ENABLE_GCP_TRACING" then "TRUE" else "")
      ⟨"some-project", none⟩ ⟨"", some "metadata: GCE metadata not defined"⟩
      "local" "svc" ⟨none, none, none, none⟩ ⟨none, none⟩ (by decide)).1⟩

end Observability
